import Mathlib

/-
Verification of the Deal Underwriter engine (single-file TypeScript source).

Shallow embedding conventions:
* JavaScript numbers are modelled as ℚ (exact rational arithmetic).  Every ℚ is
  finite, so `clampNum v fallback` (which replaces non-finite values by the
  fallback) is the identity here and is inlined away; the `Number.isFinite`
  guards in `npv`/`irr` can never fire and are dropped, with the `null` results
  of `irr` modelled as `Option.none`.
* `Math.max`/`Math.min` become `max`/`min`, `Math.abs` becomes `|·|`,
  `Math.pow` with the integer exponents used by the source becomes monoid/zpow
  powers.
* The year counts `saleYear` (hold period N) and `amortYears` are ℕ: the UI
  sanitization layer (`baseArgs`) floors both with `Math.max(1, Math.floor …)`,
  so every call site passes a positive integer.
* The source's `while` loops (`irr` bracket doubling, bisection, the annual
  payoff simulation) are written as structural recursion on an explicit fuel /
  iteration count equal to the source's loop bound.
-/

namespace DU

inductive AssetClass
  | Multifamily
  | Office
  | Industrial
  | RetailCommercial
  | SingleFamilyHome
  deriving DecidableEq

inductive OpexMode
  | PercentOfRevenue
  | LineItems
  | PerUnitYear
  | Hybrid
  deriving DecidableEq

inductive CapexMode
  | PsfYear
  | PerUnitYear
  deriving DecidableEq

inductive RecoveryMode
  | NoneMode
  | PctOfOpex
  | FlatAnnual
  deriving DecidableEq

inductive SensMetric
  | LeveredIRR
  | LeveredNPV
  | CoC
  | DSCR
  | ExitPrice
  deriving DecidableEq

inductive Tone
  | good
  | warn
  | bad
  | neutral
  deriving DecidableEq, BEq

/-- Function `pmtMonthly(loanAmount, annualRate, amortYears)` of the source:
level monthly payment at monthly rate `annualRate/12` over `amortYears*12`
periods, 0 for a non-positive loan or term, linear amortization at rate 0. -/
def pmtMonthly (loanAmount annualRate : ℚ) (amortYears : ℕ) : ℚ :=
  let r := annualRate / 12
  let n : ℕ := amortYears * 12
  if loanAmount ≤ 0 ∨ n ≤ 0 then 0
  else if r = 0 then loanAmount / (n : ℚ)
  else (loanAmount * r) / (1 - (1 + r) ^ (-(n : ℤ)))

/-- Function `remainingBalance(loanAmount, annualRate, amortYears, kPayments)`
of the source: closed-form annuity balance after `kPayments` monthly payments. -/
def remainingBalance (loanAmount annualRate : ℚ) (amortYears kPayments : ℕ) : ℚ :=
  let r := annualRate / 12
  let n : ℕ := amortYears * 12
  if loanAmount ≤ 0 ∨ n ≤ 0 then 0
  else
    let pmt := pmtMonthly loanAmount annualRate amortYears
    if r = 0 then loanAmount * (1 - (kPayments : ℚ) / (n : ℚ))
    else loanAmount * (1 + r) ^ kPayments - pmt * (((1 + r) ^ kPayments - 1) / r)

/-- Helper for `npv`: the partial sum `Σ cf_t / (1+r)^t` starting at index `t`. -/
def npvAux (r : ℚ) : List ℚ → ℕ → ℚ
  | [], _ => 0
  | cf :: rest, t => cf / (1 + r) ^ t + npvAux r rest (t + 1)

/-- Function `npv(rate, cashflows)` of the source: `Σ cf_t / (1+rate)^t`.
The non-finite guards of the source cannot fire over ℚ and are dropped. -/
def npv (rate : ℚ) (cashflows : List ℚ) : ℚ :=
  npvAux rate cashflows 0

/-- Bracket-expansion loop of `irr`: while `fLo * fHi > 0` and fuel remains,
double `hi` and recompute `fHi`; returns the final `(hi, fHi)`.  The source
runs it with `tries` counting up to 20; here the fuel counts down from 20. -/
def expandHi (cashflows : List ℚ) (fLo : ℚ) : ℕ → ℚ → ℚ → ℚ × ℚ
  | 0, hi, fHi => (hi, fHi)
  | fuel + 1, hi, fHi =>
    if fLo * fHi > 0 then expandHi cashflows fLo fuel (hi * 2) (npv (hi * 2) cashflows)
    else (hi, fHi)

/-- Bisection loop of `irr`: up to 140 iterations; early exit at
`|npv(mid)| < 1e-7`; note the source never updates `fLo`, so the sign
reference stays the initial `fLo` throughout, exactly as modelled here.
Over ℚ the midpoint stays `> -0.9999 > -1`, so `npv` at the midpoint is
always defined and the source's non-finite guard is dropped. -/
def bisect (cashflows : List ℚ) (fLo : ℚ) : ℕ → ℚ → ℚ → ℚ
  | 0, lo, hi => (lo + hi) / 2
  | fuel + 1, lo, hi =>
    let mid := (lo + hi) / 2
    let fMid := npv mid cashflows
    if |fMid| < 1 / 10 ^ 7 then mid
    else if fLo * fMid ≤ 0 then bisect cashflows fLo fuel lo mid
    else bisect cashflows fLo fuel mid hi

/-- Lower end `-0.9999` of the initial IRR bracket. -/
def irrLo : ℚ := -(9999 / 10000)

/-- Function `irr(cashflows)` of the source: `none` unless some entry is
strictly negative and some entry is strictly positive; brackets the root in
`[-0.9999, 5]`, doubling the upper bound up to 20 times looking for a sign
change; `none` if none is found, otherwise 140 bisection iterations. -/
def irr (cashflows : List ℚ) : Option ℚ :=
  let hasNeg := cashflows.any (fun cf => cf < 0)
  let hasPos := cashflows.any (fun cf => cf > 0)
  if ¬hasNeg ∨ ¬hasPos then none
  else
    let fLo := npv irrLo cashflows
    let res := expandHi cashflows fLo 20 5 (npv 5 cashflows)
    if fLo * res.2 > 0 then none
    else some (bisect cashflows fLo 140 irrLo res.1)

/-- Tone assigned by `buildRecommendation` to the DSCR note:
missing ⇒ bad, `≥ 1.25` ⇒ good, `≥ 1.05` ⇒ warn, else bad. -/
def dscrTone (dscr : Option ℚ) : Tone :=
  match dscr with
  | none => .bad
  | some d => if d ≥ 5 / 4 then .good else if d ≥ 21 / 20 then .warn else .bad

/-- Tone assigned by `buildRecommendation` to the cash-on-cash note:
missing ⇒ bad, `≥ 0.08` ⇒ good, `≥ 0.04` ⇒ warn, else bad. -/
def cocTone (coc : Option ℚ) : Tone :=
  match coc with
  | none => .bad
  | some c => if c ≥ 2 / 25 then .good else if c ≥ 1 / 25 then .warn else .bad

/-- Tone assigned by `buildRecommendation` to the levered-IRR note:
missing ⇒ bad, `≥ 0.12` ⇒ good, `≥ 0.08` ⇒ warn, else bad. -/
def irrTone (irrLevered : Option ℚ) : Tone :=
  match irrLevered with
  | none => .bad
  | some v => if v ≥ 3 / 25 then .good else if v ≥ 2 / 25 then .warn else .bad

/-- Result record of `buildRecommendation`.  The source's notes carry a tone
plus display strings (title/text built with locale formatting); only the tones
are behaviourally relevant and only they are modelled.  The `benchmarks`
constant field is omitted. -/
structure Recommendation where
  headline : String
  tone : Tone
  notes : List Tone

/-- Function `buildRecommendation({dscr, coc, irrLevered})` of the source:
one tone per metric in order DSCR, CoC, IRR, then the aggregate headline:
bad ≥ 2 ⇒ "Likely not worth it (as modeled)"; good ≥ 2 and bad = 0 ⇒
"Likely worth pursuing"; otherwise "Borderline — needs diligence". -/
def buildRecommendation (dscr coc irrLevered : Option ℚ) : Recommendation :=
  let notes : List Tone := [dscrTone dscr, cocTone coc, irrTone irrLevered]
  let good := notes.countP (· == Tone.good)
  let bad := notes.countP (· == Tone.bad)
  if bad ≥ 2 then ⟨"Likely not worth it (as modeled)", .bad, notes⟩
  else if good ≥ 2 ∧ bad = 0 then ⟨"Likely worth pursuing", .good, notes⟩
  else ⟨"Borderline — needs diligence", .warn, notes⟩

/-- Input record of `computeModel` (the `args` parameter).  Fields are the
post-sanitization values the UI's `baseArgs` passes in; `saleYear` and
`amortYears` are ℕ since `baseArgs` floors them with `Math.max(1, Math.floor …)`. -/
structure Args where
  assetClass : AssetClass
  squareFootage : ℚ
  purchasePrice : ℚ
  dueDiligenceCosts : ℚ
  closingCostPct : ℚ
  saleYear : ℕ
  rentGrowth : ℚ
  otherIncomeGrowth : ℚ
  vacancyRate : ℚ
  annualRevenue : ℚ
  otherIncomeAnnual : ℚ
  rentRollGPR : ℚ
  rentRollUnits : ℚ
  opexMode : OpexMode
  opexPctOfRev : ℚ
  opexPerUnitYear : ℚ
  mgmtFeePct : ℚ
  reservesPerUnitYear : ℚ
  opexItemsYear1 : ℚ
  expenseInflation : ℚ
  recoveryMode : RecoveryMode
  recoveryPctOfOpex : ℚ
  recoveryFlatAnnual : ℚ
  capexMode : CapexMode
  capexPsfYear1 : ℚ
  capexPerUnitYear1 : ℚ
  capexGrowth : ℚ
  exitCapRate : ℚ
  costOfSalePct : ℚ
  ltv : ℚ
  interestRate : ℚ
  amortYears : ℕ
  discountRate : ℚ

/-- Sanitized rent growth `rentG = clampNum(rentGrowth, 0)` (identity over ℚ). -/
def rentG (a : Args) : ℚ := a.rentGrowth

/-- Sanitized other-income growth `otherG = clampNum(otherIncomeGrowth, rentG)`
(identity over ℚ, where the rent-growth fallback cannot fire). -/
def otherG (a : Args) : ℚ := a.otherIncomeGrowth

/-- Sanitized vacancy rate `vacSafe = Math.max(0, clampNum(vac, 0))`. -/
def vacSafe (a : Args) : ℚ := max 0 a.vacancyRate

/-- Sanitized exit cap `exitCapSafe = Math.max(1e-9, clampNum(exitCap, 0.065))`. -/
def exitCapSafe (a : Args) : ℚ := max (1 / 10 ^ 9) a.exitCapRate

/-- Sanitized cost of sale `saleCostSafe = Math.max(0, clampNum(saleCost, 0))`. -/
def saleCostSafe (a : Args) : ℚ := max 0 a.costOfSalePct

/-- Sanitized discount rate `discSafe = Math.max(0, clampNum(disc, 0.12))`. -/
def discSafe (a : Args) : ℚ := max 0 a.discountRate

/-- Sanitized expense growth `expG = Math.max(0, clampNum(gExp, 0))`. -/
def expG (a : Args) : ℚ := max 0 a.expenseInflation

/-- Year-1 rent base: rent-roll GPR for Multifamily, flat annual revenue
otherwise, floored at 0. -/
def baseRent1 (a : Args) : ℚ :=
  max 0 (if a.assetClass = AssetClass.Multifamily then a.rentRollGPR else a.annualRevenue)

/-- Year-1 other-income base, floored at 0. -/
def baseOther1 (a : Args) : ℚ := max 0 a.otherIncomeAnnual

/-- Loan proceeds `Math.max(0, PP) * Math.max(0, Math.min(1, clampNum(LTV, 0)))`. -/
def loanProceeds (a : Args) : ℚ := max 0 a.purchasePrice * max 0 (min 1 a.ltv)

/-- Annual debt service
`pmtMonthly(loanProceeds, Math.max(0, r), Math.max(1, amort)) * 12`. -/
def debtPmtAnnual (a : Args) : ℚ :=
  pmtMonthly (loanProceeds a) (max 0 a.interestRate) (max 1 a.amortYears) * 12

/-- Loan balance after `t` iterations of the annual payoff simulation loop:
each year accrues simple interest `loanBal * r` (with the raw, unclamped rate),
pays principal `Math.max(0, debtPmtAnnual - interest)` and floors the balance
at 0. -/
def loanBalAfter (a : Args) : ℕ → ℚ
  | 0 => loanProceeds a
  | t + 1 =>
    let bal := loanBalAfter a t
    let interest := bal * a.interestRate
    let principal := max 0 (debtPmtAnnual a - interest)
    max 0 (bal - principal)

/-- Displayed loan payoff: the simulation balance after `N` annual iterations
(equal to the initial `loanProceeds` when `N = 0`, since the loop body never
runs and `payoff` keeps its initialization). -/
def payoff (a : Args) : ℚ := loanBalAfter a a.saleYear

/-- Acquisition outlay
`-(Math.max(0,PP) + Math.max(0,DD) + Math.max(0,PP)*Math.max(0,closePct))`. -/
def acquisitionCF (a : Args) : ℚ :=
  -(max 0 a.purchasePrice + max 0 a.dueDiligenceCosts +
    max 0 a.purchasePrice * max 0 a.closingCostPct)

/-- Unit count: `Math.max(0, rentRollUnits)` for Multifamily, else 1. -/
def units (a : Args) : ℚ :=
  if a.assetClass = AssetClass.Multifamily then max 0 a.rentRollUnits else 1

/-- Entry `rentRev[y]` of the source's per-year array (index 0 is never
written and stays 0): `baseRent1 * (1 + rentG)^(y-1)`. -/
def rentRev (a : Args) (y : ℕ) : ℚ :=
  if y = 0 then 0 else baseRent1 a * (1 + rentG a) ^ (y - 1)

/-- Entry `otherRev[y]`: `baseOther1 * (1 + otherG)^(y-1)`; 0 at index 0. -/
def otherRev (a : Args) (y : ℕ) : ℚ :=
  if y = 0 then 0 else baseOther1 a * (1 + otherG a) ^ (y - 1)

/-- Entry `revenue[y] = rentRev[y] + otherRev[y]` (0 at index 0 since both
summands are). -/
def revenue (a : Args) (y : ℕ) : ℚ := rentRev a y + otherRev a y

/-- Opex base by mode: percent of revenue, line items or per-unit grown at the
expense growth rate, or the hybrid sum. -/
def baseOpex (a : Args) (y : ℕ) : ℚ :=
  match a.opexMode with
  | OpexMode.PercentOfRevenue => max 0 a.opexPctOfRev * revenue a y
  | OpexMode.LineItems => max 0 a.opexItemsYear1 * (1 + expG a) ^ (y - 1)
  | OpexMode.PerUnitYear => max 0 a.opexPerUnitYear * units a * (1 + expG a) ^ (y - 1)
  | OpexMode.Hybrid =>
      max 0 a.opexItemsYear1 * (1 + expG a) ^ (y - 1) +
      max 0 a.opexPerUnitYear * units a * (1 + expG a) ^ (y - 1)

/-- Management fee `Math.max(0, mgmtPct) * revenue[y]`. -/
def mgmt (a : Args) (y : ℕ) : ℚ := max 0 a.mgmtFeePct * revenue a y

/-- Reserves `(Math.max(0, resPU) * units) * (1 + expG)^(y-1)`. -/
def reserves (a : Args) (y : ℕ) : ℚ :=
  max 0 a.reservesPerUnitYear * units a * (1 + expG a) ^ (y - 1)

/-- Entry `opexAbs[y] = Math.max(0, baseOpex + mgmt + reserves)`; 0 at index 0. -/
def opexAbs (a : Args) (y : ℕ) : ℚ :=
  if y = 0 then 0 else max 0 (baseOpex a y + mgmt a y + reserves a y)

/-- Entry `recoveries[y]` by mode: 0, a share of that year's opex, or a flat
amount grown at the rent growth rate; 0 at index 0. -/
def recoveries (a : Args) (y : ℕ) : ℚ :=
  if y = 0 then 0 else
    match a.recoveryMode with
    | RecoveryMode.NoneMode => 0
    | RecoveryMode.PctOfOpex => max 0 a.recoveryPctOfOpex * opexAbs a y
    | RecoveryMode.FlatAnnual => max 0 a.recoveryFlatAnnual * (1 + rentG a) ^ (y - 1)

/-- Entry `vacancyLoss[y] = -((revenue[y] + recoveries[y]) * vacSafe)`;
0 at index 0. -/
def vacancyLoss (a : Args) (y : ℕ) : ℚ :=
  if y = 0 then 0 else -((revenue a y + recoveries a y) * vacSafe a)

/-- Entry `egr[y] = revenue[y] + recoveries[y] + vacancyLoss[y]` (effective
gross income; 0 at index 0 since each summand is). -/
def egr (a : Args) (y : ℕ) : ℚ := revenue a y + recoveries a y + vacancyLoss a y

/-- Entry `noi[y] = egr[y] - opexAbs[y]` (0 at index 0 since both are). -/
def noi (a : Args) (y : ℕ) : ℚ := egr a y - opexAbs a y

/-- Entry `capexAbs[y]` by mode: per-square-foot or per-unit, grown at
`Math.max(0, gCapex)`; 0 at index 0. -/
def capexAbs (a : Args) (y : ℕ) : ℚ :=
  if y = 0 then 0 else
    match a.capexMode with
    | CapexMode.PsfYear =>
        max 0 a.capexPsfYear1 * max 0 a.squareFootage * (1 + max 0 a.capexGrowth) ^ (y - 1)
    | CapexMode.PerUnitYear =>
        max 0 a.capexPerUnitYear1 * units a * (1 + max 0 a.capexGrowth) ^ (y - 1)

/-- Exit sale price `salePrice = noi[N+1] / exitCapSafe`. -/
def salePrice (a : Args) : ℚ := noi a (a.saleYear + 1) / exitCapSafe a

/-- Sale costs `salePrice * saleCostSafe`. -/
def saleCosts (a : Args) : ℚ := salePrice a * saleCostSafe a

/-- Net sale proceeds before debt `salePrice - saleCosts`. -/
def saleNetBeforeDebt (a : Args) : ℚ := salePrice a - saleCosts a

/-- Entry `unleveredCF[i]` for `0 ≤ i ≤ N`: the acquisition outlay at index 0,
`noi[i] - capexAbs[i]` for operating years, with `saleNetBeforeDebt` added at
index `N` (the `unleveredCF[N] += saleNetBeforeDebt` statement, which lands on
index 0 when `N = 0`). -/
def ucfEntry (a : Args) (i : ℕ) : ℚ :=
  (if i = 0 then acquisitionCF a else noi a i - capexAbs a i) +
  (if i = a.saleYear then saleNetBeforeDebt a else 0)

/-- Unlevered cash-flow vector, indices 0..N. -/
def unleveredCF (a : Args) : List ℚ :=
  (List.range (a.saleYear + 1)).map (ucfEntry a)

/-- Closed-form exit payoff computed (but never consumed) by the source:
`Math.max(0, remainingBalance(loanProceeds, Math.max(0,r), Math.max(1,amort), N))`.
Note the source passes the hold period `N` itself — a count of *years* — as the
`kPayments` count of *monthly* payments. -/
def payoffAtExit (a : Args) : ℚ :=
  max 0 (remainingBalance (loanProceeds a) (max 0 a.interestRate) (max 1 a.amortYears)
    a.saleYear)

/-- Entry `leveredCF[i]`: index 0 is `unleveredCF[0] + loanProceeds`; operating
years subtract the annual debt service, and index `N` additionally nets the
simulation `payoff` out of the sale proceeds (the source uses `payoff` here,
not `payoffAtExit`). -/
def lcfEntry (a : Args) (i : ℕ) : ℚ :=
  if i = 0 then ucfEntry a 0 + loanProceeds a
  else
    (noi a i - capexAbs a i) - debtPmtAnnual a +
    (if i = a.saleYear then saleNetBeforeDebt a - payoff a else 0)

/-- Levered cash-flow vector, indices 0..N. -/
def leveredCF (a : Args) : List ℚ :=
  (List.range (a.saleYear + 1)).map (lcfEntry a)

/-- Year-1 NOI `noi1 = noi[1]`. -/
def noi1 (a : Args) : ℚ := noi a 1

/-- Cap rate `PP > 0 ? noi1 / PP : null`. -/
def capRate (a : Args) : Option ℚ :=
  if a.purchasePrice > 0 then some (noi1 a / a.purchasePrice) else none

/-- DSCR `debtPmtAnnual > 0 ? noi1 / debtPmtAnnual : null`. -/
def dscr (a : Args) : Option ℚ :=
  if debtPmtAnnual a > 0 then some (noi1 a / debtPmtAnnual a) else none

/-- Equity invested `equityOut = -(leveredCF[0])`. -/
def equityOut (a : Args) : ℚ := -((leveredCF a).headD 0)

/-- Cash-on-cash `equityOut > 0 ? leveredCF[1] / equityOut : null`.  The
`getD … 0` default is never consulted at the source's call sites, where
`N ≥ 1` guarantees index 1 exists. -/
def coc (a : Args) : Option ℚ :=
  if equityOut a > 0 then some ((leveredCF a).getD 1 0 / equityOut a) else none

/-- Output record of `computeModel`.  The per-year series arrays of the source
are exposed as the indexed functions above (`rentRev`, `noi`, …) rather than
duplicated as record fields. -/
structure Model where
  N : ℕ
  capRate : Option ℚ
  dscr : Option ℚ
  coc : Option ℚ
  equityOut : ℚ
  salePrice : ℚ
  saleCosts : ℚ
  saleNetBeforeDebt : ℚ
  loanProceeds : ℚ
  debtPmtAnnual : ℚ
  payoff : ℚ
  unleveredCF : List ℚ
  leveredCF : List ℚ
  uIRR : Option ℚ
  lIRR : Option ℚ
  uNPV : ℚ
  lNPV : ℚ
  noi1 : ℚ
  recommendation : Recommendation

/-- Function `computeModel(args)` of the source, assembled from the
definitions above. -/
def computeModel (a : Args) : Model :=
  { N := a.saleYear
    capRate := DU.capRate a
    dscr := DU.dscr a
    coc := DU.coc a
    equityOut := DU.equityOut a
    salePrice := DU.salePrice a
    saleCosts := DU.saleCosts a
    saleNetBeforeDebt := DU.saleNetBeforeDebt a
    loanProceeds := DU.loanProceeds a
    debtPmtAnnual := DU.debtPmtAnnual a
    payoff := DU.payoff a
    unleveredCF := DU.unleveredCF a
    leveredCF := DU.leveredCF a
    uIRR := irr (DU.unleveredCF a)
    lIRR := irr (DU.leveredCF a)
    uNPV := npv (discSafe a) (DU.unleveredCF a)
    lNPV := npv (discSafe a) (DU.leveredCF a)
    noi1 := DU.noi1 a
    recommendation := buildRecommendation (DU.dscr a) (DU.coc a) (irr (DU.leveredCF a)) }

/-- Function `metricValue(model, metric)` of the source; the ℚ-valued metrics
(levered NPV, exit price) are wrapped in `some` to share the
`number | null` result type. -/
def metricValue (model : Model) : SensMetric → Option ℚ
  | SensMetric.LeveredIRR => model.lIRR
  | SensMetric.LeveredNPV => some model.lNPV
  | SensMetric.CoC => model.coc
  | SensMetric.DSCR => model.dscr
  | SensMetric.ExitPrice => some model.salePrice

/-- Result of the `sensitivity` memo: the two axes and the 5×5 metric grid
(rows indexed by exit-cap delta, columns by purchase-price multiplier). -/
structure SensResult where
  ppMultipliers : List ℚ
  exitCapDeltas : List ℚ
  ppVals : List ℚ
  capVals : List ℚ
  grid : List (List (Option ℚ))

/-- Sensitivity engine of the source: purchase-price multipliers ±10% crossed
with exit-cap deltas ±100 bps (each resulting cap floored at 0.0001); every
cell re-runs `computeModel` with just those two inputs overridden (the
source's `simulate`). -/
def sensitivity (a : Args) (sensMetric : SensMetric) : SensResult :=
  let ppMultipliers : List ℚ := [-(1 / 10), -(1 / 20), 0, 1 / 20, 1 / 10]
  let exitCapDeltas : List ℚ := [-(1 / 100), -(1 / 200), 0, 1 / 200, 1 / 100]
  let ppVals := ppMultipliers.map fun m => a.purchasePrice * (1 + m)
  let capVals := exitCapDeltas.map fun d => max (1 / 10 ^ 4) (a.exitCapRate + d)
  let grid := capVals.map fun cap => ppVals.map fun pp =>
    metricValue (computeModel { a with purchasePrice := pp, exitCapRate := cap }) sensMetric
  ⟨ppMultipliers, exitCapDeltas, ppVals, capVals, grid⟩

/-- Center cell of the sensitivity grid: multiplier index 2 (0%) and delta
index 2 (0 bps). -/
def sensCenter (a : Args) (m : SensMetric) : Option ℚ :=
  ((sensitivity a m).grid.getD 2 []).getD 2 none

/-- Row of the tornado table. -/
structure TornadoRow where
  name : String
  lowV : Option ℚ
  highV : Option ℚ
  dLow : Option ℚ
  dHigh : Option ℚ
  swing : ℚ

/-- Signed delta from the base metric value, `null` when either side is. -/
def mkDelta (baseV v : Option ℚ) : Option ℚ :=
  match baseV, v with
  | some b, some x => some (x - b)
  | _, _ => none

/-- Swing `dLow == null || dHigh == null ? 0 : Math.max(|dLow|, |dHigh|)`. -/
def mkSwing (dLow dHigh : Option ℚ) : ℚ :=
  match dLow, dHigh with
  | some dl, some dh => max |dl| |dh|
  | _, _ => 0

/-- Fixed scenario list of the tornado engine: name, low override, high
override (the source's `Partial<baseArgs>` overrides applied to the base
record). -/
def tornadoScenarios (a : Args) : List (String × Args × Args) :=
  [ ("Purchase Price",
      { a with purchasePrice := a.purchasePrice * (19 / 20) },
      { a with purchasePrice := a.purchasePrice * (21 / 20) }),
    ("Exit Cap Rate",
      { a with exitCapRate := max (1 / 10 ^ 4) (a.exitCapRate - 1 / 200) },
      { a with exitCapRate := a.exitCapRate + 1 / 200 }),
    ("Rent Growth",
      { a with rentGrowth := a.rentGrowth - 1 / 100 },
      { a with rentGrowth := a.rentGrowth + 1 / 100 }),
    ("Other Income Growth",
      { a with otherIncomeGrowth := a.otherIncomeGrowth - 1 / 100 },
      { a with otherIncomeGrowth := a.otherIncomeGrowth + 1 / 100 }),
    ("Vacancy Rate",
      { a with vacancyRate := max 0 (a.vacancyRate - 1 / 100) },
      { a with vacancyRate := a.vacancyRate + 1 / 100 }),
    ("Interest Rate",
      { a with interestRate := max 0 (a.interestRate - 1 / 100) },
      { a with interestRate := a.interestRate + 1 / 100 }),
    ("OpEx (Pct of Rev)",
      { a with opexPctOfRev := max 0 (a.opexPctOfRev - 3 / 100) },
      { a with opexPctOfRev := a.opexPctOfRev + 3 / 100 }) ]

/-- Row built for one scenario: metric at the low and high perturbation,
signed deltas from the base value, and the swing. -/
def mkTornadoRow (baseV : Option ℚ) (metric : SensMetric)
    (s : String × Args × Args) : TornadoRow :=
  let lowV := metricValue (computeModel s.2.1) metric
  let highV := metricValue (computeModel s.2.2) metric
  let dLow := mkDelta baseV lowV
  let dHigh := mkDelta baseV highV
  ⟨s.1, lowV, highV, dLow, dHigh, mkSwing dLow dHigh⟩

/-- Descending-by-swing comparison used to model
`rows.sort((a, b) => b.swing - a.swing)`. -/
def rowGE (x y : TornadoRow) : Prop := y.swing ≤ x.swing

instance : DecidableRel rowGE := fun x y => inferInstanceAs (Decidable (y.swing ≤ x.swing))

instance : IsTotal TornadoRow rowGE := ⟨fun x y => le_total y.swing x.swing⟩

instance : IsTrans TornadoRow rowGE := ⟨fun _ _ _ hxy hyz => le_trans hyz hxy⟩

/-- Result of the `tornado` memo. -/
structure TornadoResult where
  baseV : Option ℚ
  rows : List TornadoRow
  maxSwing : ℚ

/-- Tornado engine of the source: one row per fixed scenario, sorted
descending by swing (`Array.prototype.sort` with the numeric comparator is
modelled by `List.insertionSort` on `rowGE`); `maxSwing` is
`Math.max(0.000001, ...swings)`. -/
def tornado (a : Args) (metric : SensMetric) : TornadoResult :=
  let baseV := metricValue (computeModel a) metric
  let rows0 := (tornadoScenarios a).map (mkTornadoRow baseV metric)
  let rows := List.insertionSort rowGE rows0
  let maxSwing := rows.foldl (fun m r => max m r.swing) (1 / 10 ^ 6)
  ⟨baseV, rows, maxSwing⟩

/-- Concrete input record used by witnesses and counterexamples: a 1-year
hold of a $1,000,000 all-cash office deal with flat $100 NOI, 10% exit cap
and no costs, vacancy, opex or capex. -/
def argsBase : Args :=
  { assetClass := AssetClass.Office
    squareFootage := 0
    purchasePrice := 1000000
    dueDiligenceCosts := 0
    closingCostPct := 0
    saleYear := 1
    rentGrowth := 0
    otherIncomeGrowth := 0
    vacancyRate := 0
    annualRevenue := 100
    otherIncomeAnnual := 0
    rentRollGPR := 0
    rentRollUnits := 0
    opexMode := OpexMode.PercentOfRevenue
    opexPctOfRev := 0
    opexPerUnitYear := 0
    mgmtFeePct := 0
    reservesPerUnitYear := 0
    opexItemsYear1 := 0
    expenseInflation := 0
    recoveryMode := RecoveryMode.NoneMode
    recoveryPctOfOpex := 0
    recoveryFlatAnnual := 0
    capexMode := CapexMode.PsfYear
    capexPsfYear1 := 0
    capexPerUnitYear1 := 0
    capexGrowth := 0
    exitCapRate := 1 / 10
    costOfSalePct := 0
    ltv := 0
    interestRate := 0
    amortYears := 1
    discountRate := 0 }

/-- Variant of `argsBase` with 50% LTV debt at a 12% rate on a 1-year
amortization, for exhibiting the exit-payoff divergence (C1). -/
def a1 : Args := { argsBase with ltv := 1 / 2, interestRate := 3 / 25 }

/-- Variant of `argsBase` whose exit cap rate (0.5 bps) lies below the
sensitivity grid's 0.0001 floor, for refuting the center-cell claim (C3). -/
def a3 : Args := { argsBase with exitCapRate := 1 / 20000 }

/-- Cash-flow vector with entries of both signs whose NPV never changes sign
on the bracket search range (`-1 + 3x - 3x²` has negative discriminant),
for refuting C2. -/
def cfC2 : List ℚ := [-1, 3, -3]

/-- Helper simp fact: the concrete records above are Office, not Multifamily,
so the rent base comes from `annualRevenue` and the unit count is 1. -/
theorem officeNeMultifamily : (AssetClass.Office = AssetClass.Multifamily) = False := by
  simp

/-- C6: `pmtMonthly` returns 0 whenever the loan amount is ≤ 0 or the payment
count `amortYears*12` is ≤ 0, and at annual rate 0 (with a positive loan and
term) returns the pure linear amortization payment `loanAmount / (12*amortYears)`
exactly. -/
theorem C6_pmtMonthly_zero_rate (L rate : ℚ) (y : ℕ) :
    ((L ≤ 0 ∨ y * 12 ≤ 0) → pmtMonthly L rate y = 0) ∧
    (0 < L → 0 < y * 12 → pmtMonthly L 0 y = L / (12 * (y : ℚ))) := by
  constructor
  · intro h
    simp only [pmtMonthly]
    rw [if_pos h]
  · intro hL hy
    simp only [pmtMonthly]
    rw [if_neg (by push_neg; exact ⟨hL, by omega⟩), if_pos (by norm_num)]
    push_cast
    ring

/-- Witness for C6 at a zero term and at a 30-year zero-rate loan. -/
theorem C6_witness :
    pmtMonthly 100 7 0 = 0 ∧ pmtMonthly 100 0 30 = 100 / (12 * ((30 : ℕ) : ℚ)) :=
  ⟨(C6_pmtMonthly_zero_rate 100 7 0).1 (Or.inr le_rfl),
   (C6_pmtMonthly_zero_rate 100 0 30).2 (by norm_num) (by norm_num)⟩

/-- C7: for a positive loan, a non-negative rate and a term of at least one
year, the closed-form balance after the full schedule of `12*y` monthly
payments is exactly 0. -/
theorem C7_remainingBalance_full_term (L rate : ℚ) (y : ℕ)
    (hL : 0 < L) (hr : 0 ≤ rate) (hy : 1 ≤ y) :
    remainingBalance L rate y (y * 12) = 0 := by
  have hguard : ¬(L ≤ 0 ∨ y * 12 ≤ 0) := by push_neg; exact ⟨hL, by omega⟩
  have hn : ((y * 12 : ℕ) : ℚ) ≠ 0 := by
    have : y * 12 ≠ 0 := by omega
    exact_mod_cast this
  simp only [remainingBalance, pmtMonthly]
  rw [if_neg hguard, if_neg hguard]
  rcases eq_or_lt_of_le hr with h0 | hpos
  · rw [if_pos (by rw [← h0]; norm_num)]
    rw [div_self hn]
    ring
  · have hr12 : 0 < rate / 12 := by positivity
    rw [if_neg (ne_of_gt hr12), if_neg (ne_of_gt hr12)]
    set r := rate / 12 with hrdef
    have h1r : (1 : ℚ) < 1 + r := by linarith
    have hP : (1 : ℚ) < (1 + r) ^ (y * 12) := one_lt_pow₀ h1r (by omega)
    have hPne : ((1 + r) ^ (y * 12) : ℚ) ≠ 0 := by positivity
    have hP1 : ((1 + r) ^ (y * 12) : ℚ) - 1 ≠ 0 := ne_of_gt (by linarith)
    have hinv : ((1 + r) ^ (y * 12) : ℚ)⁻¹ < 1 := inv_lt_one_of_one_lt₀ hP
    have hden : 1 - ((1 + r) ^ (y * 12) : ℚ)⁻¹ ≠ 0 := ne_of_gt (by linarith)
    rw [zpow_neg, zpow_natCast]
    field_simp
    ring

/-- Witness for C7 at a $100 loan, zero rate, one-year term. -/
theorem C7_witness : remainingBalance 100 0 1 (1 * 12) = 0 :=
  C7_remainingBalance_full_term 100 0 1 (by norm_num) le_rfl le_rfl

/-- C10: loan proceeds are clamped into `[0, max 0 purchasePrice]` for every
input record, whatever LTV is supplied. -/
theorem C10_loanProceeds_bounds (a : Args) :
    0 ≤ (computeModel a).loanProceeds ∧
    (computeModel a).loanProceeds ≤ max 0 a.purchasePrice := by
  have h0 : (computeModel a).loanProceeds = max 0 a.purchasePrice * max 0 (min 1 a.ltv) :=
    rfl
  constructor
  · rw [h0]
    exact mul_nonneg (le_max_left _ _) (le_max_left _ _)
  · rw [h0]
    exact mul_le_of_le_one_right (le_max_left _ _)
      (max_le (by norm_num) (min_le_left _ _))

/-- C4: `irr` returns `none` whenever the cash-flow vector lacks a strictly
negative or lacks a strictly positive entry, and returns a value only when
both are present. -/
theorem C4_irr_sign_guard (cf : List ℚ) :
    (((¬ ∃ x ∈ cf, x < 0) ∨ (¬ ∃ x ∈ cf, x > 0)) → irr cf = none) ∧
    (irr cf ≠ none → (∃ x ∈ cf, x < 0) ∧ (∃ x ∈ cf, x > 0)) := by
  have hcond : ∀ h : (¬ ∃ x ∈ cf, x < 0) ∨ (¬ ∃ x ∈ cf, x > 0), irr cf = none := by
    intro h
    simp only [irr]
    rw [if_pos]
    simp only [List.any_eq_true, decide_eq_true_eq]
    exact h
  refine ⟨hcond, fun h => ?_⟩
  by_cases hA : ∃ x ∈ cf, x < 0
  · by_cases hB : ∃ x ∈ cf, x > 0
    · exact ⟨hA, hB⟩
    · exact absurd (hcond (Or.inr hB)) h
  · exact absurd (hcond (Or.inl hA)) h

/-- Witness for C4 at the all-positive vector `[1, 2]`. -/
theorem C4_witness : (¬ ∃ x ∈ [(1 : ℚ), 2], x < 0) ∧ irr [(1 : ℚ), 2] = none :=
  ⟨by norm_num, (C4_irr_sign_guard [(1 : ℚ), 2]).1 (Or.inl (by norm_num))⟩

/-- C9: with LTV = 0 the deal is unlevered — loan proceeds, annual debt
service and the exit payoff are all 0, the levered cash-flow vector equals the
unlevered one at every index, and levered IRR/NPV coincide with their
unlevered counterparts. -/
theorem C9_zero_ltv_unlevered (a : Args) (h : a.ltv = 0) :
    (computeModel a).loanProceeds = 0 ∧
    (computeModel a).debtPmtAnnual = 0 ∧
    (computeModel a).payoff = 0 ∧
    (computeModel a).leveredCF = (computeModel a).unleveredCF ∧
    (computeModel a).lIRR = (computeModel a).uIRR ∧
    (computeModel a).lNPV = (computeModel a).uNPV := by
  have hlp : loanProceeds a = 0 := by
    unfold loanProceeds
    rw [h]
    norm_num
  have hdpa : debtPmtAnnual a = 0 := by
    unfold debtPmtAnnual
    rw [hlp]
    simp only [pmtMonthly]
    rw [if_pos (Or.inl le_rfl)]
    ring
  have hbal : ∀ t, loanBalAfter a t = 0 := by
    intro t
    induction t with
    | zero => exact hlp
    | succ t ih =>
      simp only [loanBalAfter]
      rw [ih, hdpa]
      norm_num
  have hpay : payoff a = 0 := hbal a.saleYear
  have hentry : ∀ i : ℕ, lcfEntry a i = ucfEntry a i := by
    intro i
    unfold lcfEntry ucfEntry
    rw [hlp, hdpa, hpay]
    by_cases hi : i = 0
    · subst hi
      simp
    · rw [if_neg hi, if_neg hi]
      by_cases hN : i = a.saleYear
      · rw [if_pos hN, if_pos hN]
        ring
      · rw [if_neg hN, if_neg hN]
        ring
  have hlcf : leveredCF a = unleveredCF a := by
    unfold leveredCF unleveredCF
    exact List.map_congr_left fun i _ => hentry i
  refine ⟨hlp, hdpa, hpay, hlcf, ?_, ?_⟩
  · show irr (leveredCF a) = irr (unleveredCF a)
    rw [hlcf]
  · show npv (discSafe a) (leveredCF a) = npv (discSafe a) (unleveredCF a)
    rw [hlcf]

/-- Witness for C9 at the all-cash base record. -/
theorem C9_witness :
    argsBase.ltv = 0 ∧
    ((computeModel argsBase).leveredCF = (computeModel argsBase).unleveredCF ∧
      (computeModel argsBase).lIRR = (computeModel argsBase).uIRR) :=
  ⟨rfl, (C9_zero_ltv_unlevered argsBase rfl).2.2.2.1,
    (C9_zero_ltv_unlevered argsBase rfl).2.2.2.2.1⟩

/-- C5 (amended): the aggregate headline of `buildRecommendation` is
"Likely not worth it (as modeled)" when at least 2 of the 3 metric tones are
bad, "Likely worth pursuing" when at least 2 are good and none is bad, and
"Borderline — needs diligence" otherwise. -/
theorem C5_headline_tiers (d c i : Option ℚ) :
    ((buildRecommendation d c i).notes.countP (· == Tone.bad) ≥ 2 →
      (buildRecommendation d c i).headline = "Likely not worth it (as modeled)") ∧
    ((buildRecommendation d c i).notes.countP (· == Tone.good) ≥ 2 ∧
        (buildRecommendation d c i).notes.countP (· == Tone.bad) = 0 →
      (buildRecommendation d c i).headline = "Likely worth pursuing") ∧
    (¬((buildRecommendation d c i).notes.countP (· == Tone.bad) ≥ 2) ∧
        ¬((buildRecommendation d c i).notes.countP (· == Tone.good) ≥ 2 ∧
            (buildRecommendation d c i).notes.countP (· == Tone.bad) = 0) →
      (buildRecommendation d c i).headline = "Borderline — needs diligence") := by
  have hnotes : (buildRecommendation d c i).notes = [dscrTone d, cocTone c, irrTone i] := by
    simp only [buildRecommendation]
    split_ifs <;> rfl
  have hhead : (buildRecommendation d c i).headline =
      (if [dscrTone d, cocTone c, irrTone i].countP (· == Tone.bad) ≥ 2 then
        "Likely not worth it (as modeled)"
      else if [dscrTone d, cocTone c, irrTone i].countP (· == Tone.good) ≥ 2 ∧
          [dscrTone d, cocTone c, irrTone i].countP (· == Tone.bad) = 0 then
        "Likely worth pursuing"
      else "Borderline — needs diligence") := by
    simp only [buildRecommendation]
    split_ifs <;> rfl
  rw [hnotes, hhead]
  split_ifs with h1 h2
  · exact ⟨fun _ => rfl, fun hg => absurd hg.2 (by omega), fun hn => absurd h1 hn.1⟩
  · exact ⟨fun hb => absurd hb h1, fun _ => rfl, fun hn => absurd h2 hn.2⟩
  · exact ⟨fun hb => absurd hb h1, fun hg => absurd hg h2, fun _ => rfl⟩

/-- Witness for C5 at three benchmark-beating metric values. -/
theorem C5_witness :
    (buildRecommendation (some 2) (some 1) (some 1)).notes.countP (· == Tone.good) ≥ 2 ∧
    (buildRecommendation (some 2) (some 1) (some 1)).notes.countP (· == Tone.bad) = 0 ∧
    (buildRecommendation (some 2) (some 1) (some 1)).headline = "Likely worth pursuing" := by
  have h1 : dscrTone (some 2) = Tone.good := by norm_num [dscrTone]
  have h2 : cocTone (some 1) = Tone.good := by norm_num [cocTone]
  have h3 : irrTone (some 1) = Tone.good := by norm_num [irrTone]
  have hg : (buildRecommendation (some 2) (some 1) (some 1)).notes.countP (· == Tone.good) ≥ 2 := by
    simp only [buildRecommendation, h1, h2, h3]
    decide
  have hb : (buildRecommendation (some 2) (some 1) (some 1)).notes.countP (· == Tone.bad) = 0 := by
    simp only [buildRecommendation, h1, h2, h3]
    decide
  exact ⟨hg, hb, (C5_headline_tiers (some 2) (some 1) (some 1)).2.1 ⟨hg, hb⟩⟩

/-- Counterexample for C5 as frozen: with all three metrics missing (all
bad), the headline is "Likely not worth it (as modeled)", not the claim's
"Likely not worth it". -/
theorem C5_counterexample :
    (buildRecommendation none none none).notes.countP (· == Tone.bad) ≥ 2 ∧
    (buildRecommendation none none none).headline ≠ "Likely not worth it" := by
  constructor
  · decide
  · decide

/-- Counterexample for C2 as frozen: `[-1, 3, -3]` has a strictly negative
and a strictly positive entry, yet `irr` returns `none` — its NPV is negative
over the entire bracket search range, so no sign change is ever found. -/
theorem C2_counterexample :
    (∃ x ∈ cfC2, x < 0) ∧ (∃ x ∈ cfC2, x > 0) ∧ irr cfC2 = none := by
  refine ⟨⟨-1, by norm_num [cfC2], by norm_num⟩, ⟨3, by norm_num [cfC2], by norm_num⟩, ?_⟩
  norm_num [irr, cfC2, irrLo, expandHi, npv, npvAux]

/-- C2 (amended): whenever the cash-flow vector has entries of both signs and
the bracket search does find a sign change (the initial `npv` at `-0.9999`
and the final expanded upper bound do not have a positive product), `irr`
returns a defined value. -/
theorem C2_irr_defined_on_bracket (cf : List ℚ)
    (h1 : ∃ x ∈ cf, x < 0) (h2 : ∃ x ∈ cf, x > 0)
    (h3 : ¬(npv irrLo cf * (expandHi cf (npv irrLo cf) 20 5 (npv 5 cf)).2 > 0)) :
    ∃ r, irr cf = some r := by
  simp only [irr]
  rw [if_neg, if_neg h3]
  · exact ⟨_, rfl⟩
  · push_neg
    constructor <;> simp only [List.any_eq_true, decide_eq_true_eq]
    · exact h1
    · exact h2

/-- Witness for C2 (amended) at `[-1, 2]`, where the initial bracket already
straddles the root. -/
theorem C2_witness :
    ((∃ x ∈ [(-1 : ℚ), 2], x < 0) ∧ (∃ x ∈ [(-1 : ℚ), 2], x > 0) ∧
      ¬(npv irrLo [(-1 : ℚ), 2] *
          (expandHi [(-1 : ℚ), 2] (npv irrLo [(-1 : ℚ), 2]) 20 5 (npv 5 [(-1 : ℚ), 2])).2 > 0)) ∧
    ∃ r, irr [(-1 : ℚ), 2] = some r :=
  ⟨⟨⟨-1, by norm_num, by norm_num⟩, ⟨2, by norm_num, by norm_num⟩,
      by norm_num [npv, npvAux, expandHi, irrLo]⟩,
    C2_irr_defined_on_bracket [(-1 : ℚ), 2] ⟨-1, by norm_num, by norm_num⟩
      ⟨2, by norm_num, by norm_num⟩ (by norm_num [npv, npvAux, expandHi, irrLo])⟩

/-- C8: every tornado row whose low and high deltas are both defined has
swing equal to the larger of their absolute values, and the returned rows are
sorted descending by swing (every earlier row's swing is ≥ every later one's). -/
theorem C8_tornado_swing_sorted (a : Args) (metric : SensMetric) :
    (∀ row ∈ (tornado a metric).rows, ∀ dl dh,
        row.dLow = some dl → row.dHigh = some dh → row.swing = max |dl| |dh|) ∧
    (tornado a metric).rows.Sorted rowGE := by
  constructor
  · intro row hrow dl dh hdl hdh
    have hmem : row ∈ (tornadoScenarios a).map
        (mkTornadoRow (metricValue (computeModel a) metric) metric) := by
      have hperm := List.perm_insertionSort rowGE
        ((tornadoScenarios a).map (mkTornadoRow (metricValue (computeModel a) metric) metric))
      exact hperm.mem_iff.mp (by simpa [tornado] using hrow)
    rcases List.mem_map.mp hmem with ⟨s, _, hs⟩
    subst hs
    simp only [mkTornadoRow] at hdl hdh ⊢
    rw [hdl, hdh]
    rfl
  · simp only [tornado]
    exact List.sorted_insertionSort rowGE _

/-- Witness for C8: the sorted-rows component at the concrete base record. -/
theorem C8_witness : ((tornado argsBase SensMetric.ExitPrice).rows).Sorted rowGE :=
  (C8_tornado_swing_sorted argsBase SensMetric.ExitPrice).2

/-- C3 (amended): whenever the base exit cap rate is at least the grid's
0.0001 floor, the center cell (0% price multiplier, 0 bps cap delta) of the
sensitivity grid equals the base-case value of the chosen metric exactly, for
every supported metric. -/
theorem C3_center_matches_base (a : Args) (m : SensMetric)
    (h : (1 : ℚ) / 10 ^ 4 ≤ a.exitCapRate) :
    sensCenter a m = metricValue (computeModel a) m := by
  have key : sensCenter a m = metricValue
      (computeModel
        { a with
            purchasePrice := a.purchasePrice * (1 + 0)
            exitCapRate := max ((1 : ℚ) / 10 ^ 4) (a.exitCapRate + 0) })
      m := rfl
  have hpp : a.purchasePrice * (1 + 0) = a.purchasePrice := by ring
  have hcap : max ((1 : ℚ) / 10 ^ 4) (a.exitCapRate + 0) = a.exitCapRate := by
    rw [add_zero]
    exact max_eq_right h
  rw [key, hpp, hcap]

/-- Witness for C3 (amended) at the base record (10% exit cap) and the
levered-IRR metric. -/
theorem C3_witness :
    (1 : ℚ) / 10 ^ 4 ≤ argsBase.exitCapRate ∧
    sensCenter argsBase SensMetric.LeveredIRR =
      metricValue (computeModel argsBase) SensMetric.LeveredIRR :=
  ⟨by norm_num [argsBase], C3_center_matches_base argsBase SensMetric.LeveredIRR
    (by norm_num [argsBase])⟩

/-- Counterexample for C3 as frozen: with a base exit cap rate of 0.5 bps
(below the grid's 0.0001 floor, yet above the engine's own 1e-9 floor and so
reachable from the sanitized inputs), the center cell of the Exit Price grid
is $1,000,000 while the base-case exit price is $2,000,000. -/
theorem C3_counterexample :
    sensCenter a3 SensMetric.ExitPrice ≠ metricValue (computeModel a3) SensMetric.ExitPrice := by
  have hbase : metricValue (computeModel a3) SensMetric.ExitPrice = some (salePrice a3) := rfl
  have hcen : sensCenter a3 SensMetric.ExitPrice = some (salePrice
      { a3 with
          purchasePrice := a3.purchasePrice * (1 + 0)
          exitCapRate := max ((1 : ℚ) / 10 ^ 4) (a3.exitCapRate + 0) }) := rfl
  have h1 : salePrice
      { a3 with
          purchasePrice := a3.purchasePrice * (1 + 0)
          exitCapRate := max ((1 : ℚ) / 10 ^ 4) (a3.exitCapRate + 0) } = 1000000 := by
    norm_num [salePrice, noi, egr, revenue, rentRev, otherRev, recoveries, vacancyLoss,
      opexAbs, baseOpex, mgmt, reserves, units, baseRent1, baseOther1, exitCapSafe, vacSafe,
      rentG, otherG, expG, a3, argsBase, max_def, min_def, officeNeMultifamily]
  have h2 : salePrice a3 = 2000000 := by
    norm_num [salePrice, noi, egr, revenue, rentRev, otherRev, recoveries, vacancyLoss,
      opexAbs, baseOpex, mgmt, reserves, units, baseRent1, baseOther1, exitCapSafe, vacSafe,
      rentG, otherG, expG, a3, argsBase, max_def, min_def, officeNeMultifamily]
  rw [hbase, hcen, h1, h2]
  norm_num

/-- C1: at the concrete leveraged input `a1`, the exit-year levered cash flow
nets out the annual-interest simulation `payoff` (first conjunct), and is NOT
equal to the value the claim prescribes, where the amount netted out is the
closed-form `remainingBalance`-based payoff (`payoffAtExit`, which the source
computes but never uses; second conjunct). -/
theorem C1_exit_payoff_divergence :
    (computeModel a1).leveredCF.getD 1 0 =
      ((noi a1 1 - capexAbs a1 1) - (computeModel a1).debtPmtAnnual) +
        ((computeModel a1).saleNetBeforeDebt - (computeModel a1).payoff) ∧
    (computeModel a1).leveredCF.getD 1 0 ≠
      ((noi a1 1 - capexAbs a1 1) - (computeModel a1).debtPmtAnnual) +
        ((computeModel a1).saleNetBeforeDebt - payoffAtExit a1) := by
  have hcf : (computeModel a1).leveredCF.getD 1 0 =
      ((noi a1 1 - capexAbs a1 1) - (computeModel a1).debtPmtAnnual) +
        ((computeModel a1).saleNetBeforeDebt - (computeModel a1).payoff) := rfl
  have hne : payoff a1 ≠ payoffAtExit a1 := by
    norm_num [payoff, loanBalAfter, payoffAtExit, loanProceeds, debtPmtAnnual, pmtMonthly,
      remainingBalance, a1, argsBase, max_def, min_def]
  have hproj : (computeModel a1).payoff = payoff a1 := rfl
  refine ⟨hcf, fun h => ?_⟩
  exact hne (by linarith [hcf.symm.trans h, hproj])

end DU
